import Mathlib

/-!
Shallow embedding of the Hacker News data-collection script (`mane.py`).

The network is modelled as an environment mapping request URLs to
responses; JSON item payloads are modelled by the `Item` structure with
optional fields (a missing JSON key is `none`).  Python exceptions are
modelled by `Except Unit`; `requests.get(url).json()` raises both on a
network error and on a malformed body, and both are collapsed into the
response constructor `ItemResp.fail`.
-/

/-- A raw Hacker News item as returned by the item endpoint.  Every field
is optional: a missing JSON key reads as `none` via `dict.get`. -/
structure Item where
  id : Option Nat
  title : Option String
  url : Option String
  score : Option Int
  byUser : Option String
  time : Option Int
  kids : Option (List Nat)
  itemType : Option String
  descendants : Option Int
  text : Option String
deriving DecidableEq, Repr

/-- Outcome of one HTTP GET of an item URL, as seen by
`requests.get(url).json()`: `fail` covers a network error or a malformed
body (both raise an exception), `null` is the JSON literal `null`
(endpoint has no data), `found` is a parsed JSON object. -/
inductive ItemResp where
  | fail
  | null
  | found (it : Item)
deriving DecidableEq, Repr

/-- The network environment: what each URL answers during the run. -/
def Env : Type := String → ItemResp

/-- Python `f-string` rendering of the optional story id used to build a
comment-fetch URL (`None` renders as the text `None`). -/
def pyStrOptNat : Option Nat → String
  | none => "None"
  | some n => toString n

/-- The item endpoint URL for a rendered identifier. -/
def item_url (s : String) : String :=
  "https://hacker-news.firebaseio.com/v0/item/" ++ s ++ ".json"

/-- Embedding of `requests.get(url).json()`: raises on a network error or
a malformed body, returns `none` for the JSON literal `null`, and the
parsed object otherwise. -/
def requests_get_json (env : Env) (url : String) : Except Unit (Option Item) :=
  match env url with
  | .fail => .error ()
  | .null => .ok none
  | .found it => .ok (some it)

/-- `fetch_story_details(story_id)` from `mane.py`: one GET of the item
endpoint, body parsed as JSON. -/
def fetch_story_details (env : Env) (story_id : Nat) : Except Unit (Option Item) :=
  requests_get_json env (item_url (toString story_id))

/-- `fetch_comment_details(comment_id)` from `mane.py`: identical shape to
`fetch_story_details`. -/
def fetch_comment_details (env : Env) (comment_id : Nat) : Except Unit (Option Item) :=
  requests_get_json env (item_url (toString comment_id))

/-!  Bounded concurrent retrieval.  `list(executor.map(f, xs))` yields the
results of `f` in the order of `xs`; iterating the map re-raises the first
exception.  Sequential collection semantics: -/

/-- Embedding of `list(executor.map(f, xs))`: results in input order, the
first captured exception re-raised at collection time. -/
def executor_map (f : α → Except Unit β) : List α → Except Unit (List β)
  | [] => .ok []
  | a :: as => do
    let b ← f a
    let bs ← executor_map f as
    return b :: bs

/-!  Completion-order model of the worker pool: task `i` computes `f i`;
the pool finishes tasks in some order `order` (a permutation of the task
indices), appending `(i, f i)` to a completion log; the map's iterator
then yields results by task index, not completion position. -/

/-- The completion log of a pool run: tasks finish in the order given,
each recording its index and result. -/
def completion_log (f : Nat → α) (order : List Nat) : List (Nat × α) :=
  order.map (fun i => (i, f i))

/-- Find the logged result of task `i`. -/
def lookup_result (log : List (Nat × α)) (i : Nat) : Option α :=
  (log.find? (fun p => p.1 = i)).map Prod.snd

/-- Collect the `n` task results from a completion log in task-index
order, re-raising the first captured exception (a missing task, which
cannot happen for a complete run, reads as an error). -/
def collect_in_order (log : List (Nat × Except Unit β)) (n : Nat) : Except Unit (List β) :=
  executor_map (fun i => (lookup_result log i).getD (.error ())) (List.range n)

/-- The value `list(executor.map(fetch_story_details, ids))` yields for
one identifier when no exception occurs: `none` for a `null` body, the
item otherwise. -/
def item_of_resp : ItemResp → Option Item
  | .fail => none
  | .null => none
  | .found it => some it

/-- The parsed (exception-free) fetch result for a story id. -/
def fetched_item (env : Env) (sid : Nat) : Option Item :=
  item_of_resp (env (item_url (toString sid)))

/-- A normalized story record, one row of the story table
(`Retrieving_data_about_articles` output schema). -/
structure StoryRow where
  id : Option Nat
  title : Option String
  url : Option String
  score : Option Int
  author : Option String
  time : Option Int
  comments_count : Nat
  itemType : Option String
  descendants : Int
deriving DecidableEq, Repr

/-- Field extraction for one truthy fetched story
(`mane.py` lines 61-71): `dict.get` for the optional fields, `0` default
for `descendants`, length of the `kids` list for `comments_count`. -/
def mk_story_row (it : Item) : StoryRow :=
  { id := it.id
    title := it.title
    url := it.url
    score := it.score
    author := it.byUser
    time := it.time
    comments_count := (it.kids.getD []).length
    itemType := it.itemType
    descendants := it.descendants.getD 0 }

/-- `Retrieving_data_about_articles(array, num_stories)`: fetch the first
`num_stories` ids concurrently, keep the truthy results, normalize each
into a `StoryRow`. -/
def Retrieving_data_about_articles (env : Env) (array : List Nat)
    (num_stories : Nat) : Except Unit (List StoryRow) := do
  let story_details_list ← executor_map (fetch_story_details env) (array.take num_stories)
  return story_details_list.filterMap (fun od => od.map mk_story_row)

/-- A comment record, one row of the comment table
(`Fetching_responses_to_top_stories` output schema). -/
structure CommentRow where
  author : Option String
  text : Option String
  time : Option Int
  parent_story : Option Nat
deriving DecidableEq, Repr

/-- Field extraction for one truthy fetched comment
(`mane.py` lines 111-116). -/
def mk_comment_row (cd : Item) (story_id : Option Nat) : CommentRow :=
  { author := cd.byUser
    text := cd.text
    time := cd.time
    parent_story := story_id }

/-- `Fetching_responses_to_top_stories(stories_data)`: for each story,
re-fetch its detail (an unguarded `requests.get(...).json()`), and when
the result is truthy and has a `kids` key, fetch every kid concurrently
and keep the truthy ones as comment rows tagged with the story id. -/
def Fetching_responses_to_top_stories (env : Env) :
    List StoryRow → Except Unit (List CommentRow)
  | [] => .ok []
  | story :: rest => do
    let story_details ← requests_get_json env (item_url (pyStrOptNat story.id))
    let here ← match story_details with
      | some it =>
        match it.kids with
        | some comment_ids => do
          let comment_details_list ← executor_map (fetch_comment_details env) comment_ids
          pure (comment_details_list.filterMap (fun od => od.map (fun cd => mk_comment_row cd story.id)))
        | none => pure []
      | none => pure []
    let further ← Fetching_responses_to_top_stories env rest
    return here ++ further

/-!  Tabular persistence.  The delimited-text details (quoting, commas)
are collaborator territory; a persisted file is modelled as its list of
rows, each row the list of cell strings in schema order.  `csv.DictWriter`
writes `None` as the empty cell and numbers via `str`; `pandas.read_csv`
reads the empty cell as missing and parses numeric cells back to
numbers. -/

/-- Decimal rendering of a natural number, as Python `str` produces
(digit characters, most significant first; `0` renders as the digit 0). -/
def natRepr (n : Nat) : String :=
  if n = 0 then "0"
  else ((Nat.digits 10 n).reverse.map Nat.digitChar).asString

/-- Decimal rendering of an integer, as Python `str` produces. -/
def intRepr (i : Int) : String :=
  if i < 0 then "-" ++ natRepr i.natAbs else natRepr i.toNat

/-- The numeric value of a decimal digit character, `none` on anything
else. -/
def charDigit (c : Char) : Option Nat :=
  if c = '0' then some 0 else if c = '1' then some 1
  else if c = '2' then some 2 else if c = '3' then some 3
  else if c = '4' then some 4 else if c = '5' then some 5
  else if c = '6' then some 6 else if c = '7' then some 7
  else if c = '8' then some 8 else if c = '9' then some 9 else none

/-- Digit values of a character list, `none` as soon as one character is
not a decimal digit. -/
def digitsOfChars : List Char → Option (List Nat)
  | [] => some []
  | c :: cs =>
    match charDigit c, digitsOfChars cs with
    | some d, some ds => some (d :: ds)
    | _, _ => none

/-- Parse a nonempty all-digit character list as a natural number
(most significant digit first). -/
def parseNatList (cs : List Char) : Option Nat :=
  match digitsOfChars cs with
  | none => none
  | some ds => if cs = [] then none else some (Nat.ofDigits 10 ds.reverse)

/-- Numeric cell parsing as `pandas.read_csv` performs it for a natural
number column. -/
def parseNat (s : String) : Option Nat := parseNatList s.data

/-- Numeric cell parsing for an integer column: an optional leading minus
sign, then digits. -/
def parseInt (s : String) : Option Int :=
  match s.data with
  | [] => none
  | c :: cs =>
    if c = '-' then Option.map (fun n : Nat => -(n : Int)) (parseNatList cs)
    else Option.map (fun n : Nat => (n : Int)) (parseNatList (c :: cs))

/-- Cell written for an optional natural number (`None` writes as the
empty cell). -/
def encOptNat : Option Nat → String
  | none => ""
  | some n => natRepr n

/-- Cell written for an optional integer. -/
def encOptInt : Option Int → String
  | none => ""
  | some i => intRepr i

/-- Cell written for an optional string (`None` writes as the empty
cell, and the empty string also writes as the empty cell). -/
def encOptStr : Option String → String
  | none => ""
  | some s => s

/-- Read an optional natural-number cell back: the empty cell is missing. -/
def decOptNat (s : String) : Option Nat :=
  if s = "" then none else parseNat s

/-- Read an optional integer cell back: the empty cell is missing. -/
def decOptInt (s : String) : Option Int :=
  if s = "" then none else parseInt s

/-- Read an optional text cell back: the empty cell is missing. -/
def decOptStr (s : String) : Option String :=
  if s = "" then none else some s

/-- The header row of the story table file. -/
def story_header : List String :=
  ["id", "title", "url", "score", "author", "time", "comments_count", "type", "descendants"]

/-- The cells `csv.DictWriter.writerow` emits for one story row, in
schema order. -/
def enc_story_row (r : StoryRow) : List String :=
  [encOptNat r.id, encOptStr r.title, encOptStr r.url, encOptInt r.score,
   encOptStr r.author, encOptInt r.time, natRepr r.comments_count,
   encOptStr r.itemType, intRepr r.descendants]

/-- One story row as `pandas.read_csv` rebuilds it from its cells. -/
def dec_story_row (cells : List String) : StoryRow :=
  { id := decOptNat (cells.getD 0 "")
    title := decOptStr (cells.getD 1 "")
    url := decOptStr (cells.getD 2 "")
    score := decOptInt (cells.getD 3 "")
    author := decOptStr (cells.getD 4 "")
    time := decOptInt (cells.getD 5 "")
    comments_count := (parseNat (cells.getD 6 "")).getD 0
    itemType := decOptStr (cells.getD 7 "")
    descendants := (parseInt (cells.getD 8 "")).getD 0 }

/-- `Saving_data_in_a_csv_file(stories)`: header row, then one row per
story in table order (the file content, as rows of cells). -/
def Saving_data_in_a_csv_file (array_of_dictionaries : List StoryRow) : List (List String) :=
  story_header :: array_of_dictionaries.map enc_story_row

/-- `pd.read_csv('top_stories.csv')`: drop the header, rebuild each row. -/
def read_story_csv (file : List (List String)) : List StoryRow :=
  match file with
  | [] => []
  | _ :: rows => rows.map dec_story_row

/-- The header row of the comment table file. -/
def comment_header : List String :=
  ["author", "text", "time", "parent_story"]

/-- The cells written for one comment row, in schema order. -/
def enc_comment_row (r : CommentRow) : List String :=
  [encOptStr r.author, encOptStr r.text, encOptInt r.time, encOptNat r.parent_story]

/-- One comment row as `pandas.read_csv` rebuilds it from its cells. -/
def dec_comment_row (cells : List String) : CommentRow :=
  { author := decOptStr (cells.getD 0 "")
    text := decOptStr (cells.getD 1 "")
    time := decOptInt (cells.getD 2 "")
    parent_story := decOptNat (cells.getD 3 "") }

/-- `Saving_comments_data_in_a_csv_file(comments)`: header row, then one
row per comment in table order. -/
def Saving_comments_data_in_a_csv_file (comments_data : List CommentRow) : List (List String) :=
  comment_header :: comments_data.map enc_comment_row

/-- `pd.read_csv('comments.csv')`: drop the header, rebuild each row. -/
def read_comment_csv (file : List (List String)) : List CommentRow :=
  match file with
  | [] => []
  | _ :: rows => rows.map dec_comment_row

/-- The stringification a story row undergoes through one write/read
cycle: an empty optional text field collapses to missing; everything
else survives. -/
def normalize_story_row (r : StoryRow) : StoryRow :=
  { r with
    title := if r.title = some "" then none else r.title
    url := if r.url = some "" then none else r.url
    author := if r.author = some "" then none else r.author
    itemType := if r.itemType = some "" then none else r.itemType }

/-- The stringification a comment row undergoes through one write/read
cycle. -/
def normalize_comment_row (r : CommentRow) : CommentRow :=
  { r with
    author := if r.author = some "" then none else r.author
    text := if r.text = some "" then none else r.text }

/-!  Analysis stage (`Data_analysis_and_statistics`).  Numeric columns
carry IEEE values; arithmetic on the values the claims touch is exact, so
a float is modelled as an exact rational or the non-signalling `NaN` that
numpy produces for `0/0` (float division never raises). -/

/-- A numpy floating value as the analysis produces it: an exact number,
`NaN` (from an invalid operation such as `0/0`), or an infinity (from
`x/0` with `x` nonzero). -/
inductive PyNum where
  | val (q : ℚ)
  | nan
  | inf
  | ninf
deriving DecidableEq, Repr

/-- numpy true division: dividing by zero warns and yields `NaN` (for
`0/0`) or an infinity, never an exception. -/
def np_div : PyNum → PyNum → PyNum
  | .val a, .val b =>
    if b = 0 then (if a = 0 then .nan else if a > 0 then .inf else .ninf)
    else .val (a / b)
  | _, _ => .nan

/-- numpy addition on the modelled values (any non-finite operand
propagates; `inf + ninf` is `NaN`). -/
def np_add : PyNum → PyNum → PyNum
  | .val a, .val b => .val (a + b)
  | .val _, x => x
  | x, .val _ => x
  | .inf, .inf => .inf
  | .ninf, .ninf => .ninf
  | _, _ => .nan

/-- numpy multiplication restricted to a finite right factor, as used to
scale a fraction by 100. -/
def np_scale (x : PyNum) (c : ℚ) : PyNum :=
  match x with
  | .val a => .val (a * c)
  | .nan => .nan
  | .inf => if c = 0 then .nan else if c > 0 then .inf else .ninf
  | .ninf => if c = 0 then .nan else if c > 0 then .ninf else .inf

/-- `stories_df['url'].notna().sum()` (`mane.py` line 224): how many
stories have a present url. -/
def external_links (stories_df : List StoryRow) : Nat :=
  (stories_df.filter (fun s => s.url.isSome)).length

/-- `len(stories_df) - external_links` (`mane.py` line 225). -/
def self_posts (stories_df : List StoryRow) : Int :=
  (stories_df.length : Int) - (external_links stories_df : Int)

/-- `(external_links / len(stories_df)) * 100` (`mane.py` line 226). -/
def external_links_percentage (stories_df : List StoryRow) : PyNum :=
  np_scale (np_div (.val (external_links stories_df)) (.val stories_df.length)) 100

/-- `(self_posts / len(stories_df)) * 100` (`mane.py` line 227). -/
def self_posts_percentage (stories_df : List StoryRow) : PyNum :=
  np_scale (np_div (.val (self_posts stories_df)) (.val stories_df.length)) 100

/-!  Comment-column preparation (`mane.py` lines 250-253).  A missing or
empty text field reads back from the file as `NaN`; `astype(str)` turns
that `NaN` into the three-character string `nan`, after which
`fillna('')` finds nothing left to fill. -/

/-- `Series.astype(str)` on one cell: a missing value stringifies to the
literal text `nan`. -/
def astype_str (cell : Option String) : Option String :=
  some (match cell with
        | none => "nan"
        | some s => s)

/-- `Series.fillna(v)` on one cell. -/
def fillna (v : String) (cell : Option String) : Option String :=
  some (cell.getD v)

/-- `comments_df['text']` after line 250 of `mane.py`:
`astype(str)` then `fillna('')`. -/
def prepared_text (cell : Option String) : Option String :=
  fillna "" (astype_str cell)

/-- `comments_df['comment_length']` for one cell (`mane.py` line 253):
`str.len()` of the prepared text. -/
def comment_length (cell : Option String) : Option Nat :=
  (prepared_text cell).map String.length

/-- `sia.polarity_scores(x)['compound'] if x else 0` (`mane.py` line
270), the lexicon model abstracted as a score function on texts. -/
def sentiment_score (polarity : String → ℚ) (x : String) : ℚ :=
  if x = "" then 0 else polarity x

/-- The label lambda of `mane.py` line 271:
`'Positive' if x > 0 else ('Negative' if x < 0 else 'Neutral')`. -/
def sentiment_label (x : ℚ) : String :=
  if x > 0 then "Positive" else if x < 0 then "Negative" else "Neutral"

/-!  Orchestrator (`Data_collection_and_analysis_from_Hacker_News`).
The working directory holds at most the two table files; the analysis
stage is embedded piecewise above, so the orchestrator is modelled up to
the point where both reloaded frames are in hand. -/

/-- The files the run reads and writes: the content of
`top_stories.csv` and `comments.csv`, when they exist on disk. -/
structure FS where
  top_stories_csv : Option (List (List String))
  comments_csv : Option (List (List String))
deriving Repr

/-- How a run can fail: an exception out of a fetch stage, or
`pd.read_csv` on a file that does not exist. -/
inductive RunError where
  | fetchFailure
  | fileNotFound
deriving DecidableEq, Repr

/-- `Data_collection_and_analysis_from_Hacker_News(num_of_stories)` up to
the reload: fetch the top-story ids, build and always write the story
table, build the comment table, write it only when non-empty, then
unconditionally reload both files.  Returns the final disk state and the
two reloaded frames handed to the analysis. -/
def Data_collection_and_analysis_from_Hacker_News (env : Env)
    (top_stories_ids : Except Unit (List Nat)) (num_of_stories : Nat)
    (disk : FS) : Except RunError (FS × List StoryRow × List CommentRow) := do
  let ids ← top_stories_ids.mapError (fun _ => RunError.fetchFailure)
  let articles_data ← (Retrieving_data_about_articles env ids num_of_stories).mapError
    (fun _ => RunError.fetchFailure)
  let disk1 : FS := { disk with top_stories_csv := some (Saving_data_in_a_csv_file articles_data) }
  let comments_data ← (Fetching_responses_to_top_stories env articles_data).mapError
    (fun _ => RunError.fetchFailure)
  let disk2 : FS :=
    if comments_data.isEmpty then disk1
    else { disk1 with comments_csv := some (Saving_comments_data_in_a_csv_file comments_data) }
  let stories_df ← match disk2.top_stories_csv with
    | some file => pure (read_story_csv file)
    | none => throw RunError.fileNotFound
  let comments_df ← match disk2.comments_csv with
    | some file => pure (read_comment_csv file)
    | none => throw RunError.fileNotFound
  return (disk2, stories_df, comments_df)

/-!  Concrete runs used by the claim analyses: small environments,
items and tables on which the functions above are evaluated. -/

/-- An environment whose every response body is malformed (or whose
transport fails): `.json()` raises. -/
def env_c2 : Env := fun _ => .fail

/-- An environment with no data for any item. -/
def env_c2w : Env := fun _ => .null

/-- A two-row story table: one self post, one external link. -/
def story_c7a : StoryRow :=
  { id := some 1, title := some ("a"), url := none, score := some 10,
    author := some ("u"), time := some 0, comments_count := 2,
    itemType := some ("story"), descendants := 2 }

/-- The external-link row of the two-row witness table. -/
def story_c7b : StoryRow :=
  { id := some 2, title := some ("b"), url := some ("http://x"), score := some 30,
    author := some ("v"), time := some 0, comments_count := 0,
    itemType := some ("story"), descendants := 0 }

/-- The item the C5 witness environment serves for identifier 1. -/
def item_c5 : Item :=
  { id := some 1, title := some ("t"), url := none, score := some 5,
    byUser := some ("u"), time := some 7, kids := some [11, 12],
    itemType := some ("story"), descendants := none, text := none }

/-- A C5 witness environment: identifier 1 resolves, identifier 2 has no
data (it is dropped), everything else has no data. -/
def env_c5 : Env :=
  fun u => if u = item_url (toString 1) then .found item_c5 else .null

/-- The single story row of the C6 witness run. -/
def story_c6 : StoryRow :=
  { id := some 1, title := some ("t"), url := none, score := some 5,
    author := some ("u"), time := some 7, comments_count := 1,
    itemType := some ("story"), descendants := 1 }

/-- Story detail served for id 1 in the C6 witness run: one kid, id 2. -/
def item_c6s : Item :=
  { id := some 1, title := some ("t"), url := none, score := some 5,
    byUser := some ("u"), time := some 7, kids := some [2],
    itemType := some ("story"), descendants := some 1, text := none }

/-- Comment detail served for id 2 in the C6 witness run. -/
def item_c6c : Item :=
  { id := some 2, title := none, url := none, score := none,
    byUser := some ("w"), time := some 8, kids := none,
    itemType := some ("comment"), descendants := none, text := some ("hello") }

/-- The C6 witness environment. -/
def env_c6 : Env :=
  fun u =>
    if u = item_url (toString 1) then .found item_c6s
    else if u = item_url (toString 2) then .found item_c6c
    else .null

/-- An environment whose response for identifier 7 is a malformed body,
so that fetch raises. -/
def env_c1x : Env :=
  fun u => if u = item_url (toString 7) then .fail else .null

/-- Story item served for identifier 3 in the C1 witness run. -/
def item_c1 : Item :=
  { id := some 3, title := some ("s"), url := some ("http://e"), score := some 1,
    byUser := some ("a"), time := some 2, kids := some [],
    itemType := some ("story"), descendants := some 0, text := none }

/-- The C1 witness environment: id 3 resolves, id 4 has no data. -/
def env_c1w : Env :=
  fun u => if u = item_url (toString 3) then .found item_c1 else .null

/-- An environment with no data at all, for the C10 witness run. -/
def env_c10 : Env := fun _ => .null

/-- A stale comment file left on disk by an earlier run. -/
def stale_comments_file : List (List String) :=
  Saving_comments_data_in_a_csv_file
    [{ author := some ("alice"), text := some ("old comment"), time := some 5,
       parent_story := some 1 }]

/-!  Helper lemmas. -/

@[simp] theorem except_bind_ok (a : α) (f : α → Except ε β) :
    (Except.ok a >>= f : Except ε β) = f a := rfl

@[simp] theorem except_bind_err (e : ε) (f : α → Except ε β) :
    (Except.error e >>= f : Except ε β) = Except.error e := rfl

@[simp] theorem except_map_ok (g : α → β) (a : α) :
    (g <$> (Except.ok a : Except ε α)) = Except.ok (g a) := rfl

@[simp] theorem except_map_err (g : α → β) (e : ε) :
    (g <$> (Except.error e : Except ε α)) = Except.error e := rfl

@[simp] theorem except_pure_eq (a : α) : (pure a : Except ε α) = Except.ok a := rfl

@[simp] theorem except_throw_eq (e : ε) : (throw e : Except ε α) = Except.error e := rfl

/-- `executor_map` succeeds exactly when every task succeeds, tying the
output elementwise to the input. -/
theorem executor_map_ok_iff {f : α → Except Unit β} {xs : List α} {ys : List β} :
    executor_map f xs = .ok ys ↔ List.Forall₂ (fun a b => f a = .ok b) xs ys := by
  induction xs generalizing ys with
  | nil =>
    constructor
    · intro h
      cases ys with
      | nil => exact List.Forall₂.nil
      | cons y ys => simp [executor_map] at h
    · intro h
      cases h
      rfl
  | cons a as ih =>
    constructor
    · intro h
      cases hfa : f a with
      | error e => simp [executor_map, hfa] at h
      | ok b =>
        cases hrest : executor_map f as with
        | error e => simp [executor_map, hfa, hrest] at h
        | ok bs =>
          have hys : b :: bs = ys := by
            simpa [executor_map, hfa, hrest] using h
          subst hys
          exact List.Forall₂.cons hfa (ih.mp hrest)
    · intro h
      cases h with
      | cons hab htail =>
        simp [executor_map, hab, ih.mpr htail]

/-- Pointwise successful tasks make `executor_map` a plain `map`. -/
theorem executor_map_eq_map_of_ok {f : α → Except Unit β} {g : α → β} {xs : List α}
    (h : ∀ a ∈ xs, f a = .ok (g a)) :
    executor_map f xs = .ok (xs.map g) := by
  induction xs with
  | nil => rfl
  | cons a as ih =>
    have ha := h a (List.mem_cons_self a as)
    have htail := ih (fun b hb => h b (List.mem_cons_of_mem a hb))
    simp [executor_map, ha, htail]

/-- A member of the right list of a `Forall₂` is related to some member
of the left list. -/
theorem forall₂_mem_right {R : α → β → Prop} {xs : List α} {ys : List β}
    (h : List.Forall₂ R xs ys) {b : β} (hb : b ∈ ys) : ∃ a ∈ xs, R a b := by
  induction h with
  | nil => cases hb
  | cons hab _ ih =>
    rcases List.mem_cons.mp hb with rfl | hb2
    · exact ⟨_, List.mem_cons_self _ _, hab⟩
    · rcases ih hb2 with ⟨a, ha, hr⟩
      exact ⟨a, List.mem_cons_of_mem _ ha, hr⟩

/-- A completed task's logged result is its computed value, wherever it
sits in the completion order. -/
theorem lookup_result_completion_log (f : Nat → α) (order : List Nat) (i : Nat)
    (h : i ∈ order) :
    lookup_result (completion_log f order) i = some (f i) := by
  induction order with
  | nil => cases h
  | cons j rest ih =>
    by_cases hj : j = i
    · subst hj
      simp [lookup_result, completion_log]
    · have h2 : i ∈ rest := by
        rcases List.mem_cons.mp h with h1 | h1
        · exact absurd h1.symm hj
        · exact h1
      simpa [lookup_result, completion_log, hj] using ih h2

/-- Mapping an index-to-element read over `range` is mapping over the
list itself. -/
theorem map_range_getD (L : List α) (d : α) (h : α → β) :
    (List.range L.length).map (fun i => h (L.getD i d)) = L.map h := by
  induction L with
  | nil => rfl
  | cons a as ih =>
    rw [List.length_cons, List.range_succ_eq_map]
    simp only [List.map_cons, List.getD_cons_zero, List.map_map]
    exact congrArg (List.cons (h a)) ih

/-- An exception-free response makes the fetch return its parsed item. -/
theorem fetch_story_details_eq_of_ne_fail {env : Env} {sid : Nat}
    (h : env (item_url (toString sid)) ≠ .fail) :
    fetch_story_details env sid = .ok (fetched_item env sid) := by
  cases henv : env (item_url (toString sid)) with
  | fail => exact absurd henv h
  | null => simp [fetch_story_details, requests_get_json, fetched_item, item_of_resp, henv]
  | found it => simp [fetch_story_details, requests_get_json, fetched_item, item_of_resp, henv]

/-!  Codec lemmas: the cell parsers invert the cell writers. -/

/-- Reading a digit character back gives the digit. -/
theorem charDigit_digitChar {d : Nat} (h : d < 10) :
    charDigit (Nat.digitChar d) = some d := by
  interval_cases d <;> rfl

/-- A digit character is not the minus sign. -/
theorem digitChar_ne_neg {d : Nat} (h : d < 10) : Nat.digitChar d ≠ '-' := by
  interval_cases d <;> decide

/-- A rendered digit string reads back as its digit list. -/
theorem digitsOfChars_map_digitChar {l : List Nat} (h : ∀ d ∈ l, d < 10) :
    digitsOfChars (l.map Nat.digitChar) = some l := by
  induction l with
  | nil => rfl
  | cons d ds ih =>
    have hd := charDigit_digitChar (h d (List.mem_cons_self d ds))
    have hds := ih (fun e he => h e (List.mem_cons_of_mem d he))
    simp [digitsOfChars, hd, hds]

/-- The characters of the decimal rendering of a natural number. -/
theorem natRepr_data (n : Nat) :
    (natRepr n).data =
      if n = 0 then ['0'] else ((Nat.digits 10 n).reverse.map Nat.digitChar) := by
  unfold natRepr
  split <;> rfl

/-- Parsing inverts the decimal rendering of a natural number. -/
theorem parseNat_natRepr (n : Nat) : parseNat (natRepr n) = some n := by
  by_cases hn : n = 0
  · subst hn
    rfl
  · have hd : ∀ d ∈ (Nat.digits 10 n).reverse, d < 10 := fun d hmem =>
      Nat.digits_lt_base (by norm_num) (List.mem_reverse.mp hmem)
    have hne : (Nat.digits 10 n).reverse ≠ [] := by
      simpa using Nat.digits_ne_nil_iff_ne_zero.mpr hn
    have hdata : (natRepr n).data = ((Nat.digits 10 n).reverse.map Nat.digitChar) := by
      simp [natRepr_data, hn]
    have hmapne : ((Nat.digits 10 n).reverse.map Nat.digitChar) ≠ [] := by
      simpa using hne
    unfold parseNat
    rw [hdata]
    unfold parseNatList
    rw [digitsOfChars_map_digitChar hd]
    simp only [if_neg hmapne]
    simp [Nat.ofDigits_digits]

/-- The decimal rendering of a natural number is a digit list headed by a
character other than the minus sign. -/
theorem natRepr_head_cons (n : Nat) :
    ∃ c cs, (natRepr n).data = c :: cs ∧ c ≠ '-' := by
  by_cases hn : n = 0
  · subst hn
    exact ⟨'0', [], rfl, by decide⟩
  · have hne : Nat.digits 10 n ≠ [] := Nat.digits_ne_nil_iff_ne_zero.mpr hn
    rcases hl : (Nat.digits 10 n).reverse with - | ⟨d, l⟩
    · exact absurd (by simpa using hl) hne
    · have hd10 : d < 10 := by
        have : d ∈ (Nat.digits 10 n).reverse := by
          rw [hl]
          exact List.mem_cons_self d l
        exact Nat.digits_lt_base (by norm_num) (List.mem_reverse.mp this)
      refine ⟨Nat.digitChar d, l.map Nat.digitChar, ?_, digitChar_ne_neg hd10⟩
      rw [natRepr_data, if_neg hn, hl]
      rfl

/-- The decimal rendering of a natural number is a nonempty string. -/
theorem natRepr_ne_empty (n : Nat) : natRepr n ≠ "" := by
  obtain ⟨c, cs, hdata, -⟩ := natRepr_head_cons n
  intro h
  rw [h] at hdata
  cases hdata

/-- `parseInt` on a string headed by a digit parses the whole string as
a natural number. -/
theorem parseInt_eq_of_head_digit {s : String} {c : Char} {cs : List Char}
    (hs : s.data = c :: cs) (hc : c ≠ '-') :
    parseInt s = Option.map (fun n : Nat => (n : Int)) (parseNat s) := by
  unfold parseInt parseNat
  rw [hs]
  simp [hc]

/-- `parseInt` on a minus-sign-headed string negates the parse of the
rest. -/
theorem parseInt_neg_str (s : String) :
    parseInt ("-" ++ s) = Option.map (fun n : Nat => -(n : Int)) (parseNat s) := by
  unfold parseInt parseNat
  have hdata : (("-" ++ s) : String).data = '-' :: s.data := by simp
  rw [hdata]
  simp

/-- Parsing inverts the decimal rendering of an integer. -/
theorem parseInt_intRepr (i : Int) : parseInt (intRepr i) = some i := by
  by_cases hi : i < 0
  · unfold intRepr
    rw [if_pos hi, parseInt_neg_str, parseNat_natRepr]
    simp only [Option.map_some']
    congr 1
    omega
  · obtain ⟨c, cs, hdata, hc⟩ := natRepr_head_cons i.toNat
    unfold intRepr
    rw [if_neg hi, parseInt_eq_of_head_digit hdata hc, parseNat_natRepr]
    simp only [Option.map_some']
    congr 1
    omega

/-- The decimal rendering of an integer is a nonempty string. -/
theorem intRepr_ne_empty (i : Int) : intRepr i ≠ "" := by
  unfold intRepr
  by_cases hi : i < 0
  · rw [if_pos hi]
    intro h
    have := congrArg String.data h
    simp at this
  · rw [if_neg hi]
    exact natRepr_ne_empty i.toNat

/-- Optional-natural cells survive a write/read cycle. -/
theorem decOptNat_encOptNat (o : Option Nat) : decOptNat (encOptNat o) = o := by
  cases o with
  | none => rfl
  | some n => simp [encOptNat, decOptNat, natRepr_ne_empty n, parseNat_natRepr n]

/-- Optional-integer cells survive a write/read cycle. -/
theorem decOptInt_encOptInt (o : Option Int) : decOptInt (encOptInt o) = o := by
  cases o with
  | none => rfl
  | some i => simp [encOptInt, decOptInt, intRepr_ne_empty i, parseInt_intRepr i]

/-- Optional-text cells survive a write/read cycle up to the conflation
of the empty string with a missing value. -/
theorem decOptStr_encOptStr (o : Option String) :
    decOptStr (encOptStr o) = if o = some "" then none else o := by
  cases o with
  | none => rfl
  | some s =>
    by_cases hs : s = ""
    · subst hs
      rfl
    · simp [encOptStr, decOptStr, hs]

/-- One story row survives a write/read cycle up to stringification. -/
theorem dec_enc_story_row (r : StoryRow) :
    dec_story_row (enc_story_row r) = normalize_story_row r := by
  unfold dec_story_row enc_story_row normalize_story_row
  simp [decOptNat_encOptNat, decOptInt_encOptInt, decOptStr_encOptStr,
    parseNat_natRepr, parseInt_intRepr]

/-- One comment row survives a write/read cycle up to stringification. -/
theorem dec_enc_comment_row (r : CommentRow) :
    dec_comment_row (enc_comment_row r) = normalize_comment_row r := by
  unfold dec_comment_row enc_comment_row normalize_comment_row
  simp [decOptNat_encOptNat, decOptInt_encOptInt, decOptStr_encOptStr]

/-!  Claim theorems. -/

/-- Claim C2 counterexample: on a malformed body the item fetch does not
return an absent result — the exception propagates out of
`fetch_story_details` and `fetch_comment_details`. -/
theorem fetch_raises_on_malformed_body :
    fetch_story_details env_c2 3 = .error () ∧
    fetch_comment_details env_c2 3 = .error () :=
  ⟨rfl, rfl⟩

/-- Claim C2 (amended): when the endpoint returns no data (the JSON
literal `null`), both item fetchers return an absent result without
raising; a malformed body or network error instead propagates as an
exception. -/
theorem fetch_absent_on_no_data (env : Env) (item_id : Nat)
    (h : env (item_url (toString item_id)) = .null) :
    fetch_story_details env item_id = .ok none ∧
    fetch_comment_details env item_id = .ok none := by
  unfold fetch_story_details fetch_comment_details requests_get_json
  rw [h]
  exact ⟨rfl, rfl⟩

/-- Witness for the amended C2 at identifier 3. -/
theorem fetch_absent_on_no_data_witness :
    env_c2w (item_url (toString 3)) = ItemResp.null ∧
    (fetch_story_details env_c2w 3 = .ok none ∧
     fetch_comment_details env_c2w 3 = .ok none) :=
  ⟨rfl, fetch_absent_on_no_data env_c2w 3 rfl⟩

/-- Claim C3 counterexample: on the zero-row story table the percentage
computations do not fail — numpy turns `0/0` into `NaN` with a warning,
and the metrics are silently recorded as `NaN`. -/
theorem empty_table_percentages_are_nan :
    external_links_percentage [] = PyNum.nan ∧
    self_posts_percentage [] = PyNum.nan := by
  constructor <;> decide

/-- Claim C3 (amended): for every zero-row story table, the
external-link and self-post percentage computations evaluate `0/0`
under float semantics and yield `NaN`; the analysis does not raise a
precondition failure there. -/
theorem empty_table_percentages_nan (stories_df : List StoryRow)
    (h : stories_df.length = 0) :
    external_links_percentage stories_df = PyNum.nan ∧
    self_posts_percentage stories_df = PyNum.nan := by
  have hnil : stories_df = [] := List.length_eq_zero.mp h
  subst hnil
  constructor <;> decide

/-- Witness for the amended C3 at the empty table. -/
theorem empty_table_percentages_nan_witness :
    (List.length ([] : List StoryRow) = 0) ∧
    (external_links_percentage [] = PyNum.nan ∧
     self_posts_percentage [] = PyNum.nan) :=
  ⟨rfl, empty_table_percentages_nan [] rfl⟩

/-- Claim C4: a comment whose text field is missing (or was the empty
string, which reloads as missing) gets `comment_length` 3 — the length
of the literal text `nan` produced by `astype(str)` before `fillna('')`
runs — not 0. -/
theorem comment_length_of_missing_text : comment_length none = some 3 := rfl

/-- Claim C7: for every non-empty story table, the external-link
percentage and the self-post percentage computed by the analysis sum to
exactly 100 (the embedding computes with exact rationals; the source
floats agree up to rounding). -/
theorem percentages_sum_to_hundred (stories_df : List StoryRow)
    (h : stories_df ≠ []) :
    np_add (external_links_percentage stories_df) (self_posts_percentage stories_df)
      = PyNum.val 100 := by
  have hn0 : stories_df.length ≠ 0 := by
    simpa [List.length_eq_zero] using h
  have hn : ((stories_df.length : ℚ)) ≠ 0 := Nat.cast_ne_zero.mpr hn0
  simp only [external_links_percentage, self_posts_percentage, np_div, if_neg hn,
    np_scale, np_add, self_posts]
  congr 1
  push_cast
  field_simp
  ring

/-- Witness for C7 on the two-row table of the specification scenario. -/
theorem percentages_sum_to_hundred_witness :
    ([story_c7a, story_c7b] ≠ ([] : List StoryRow)) ∧
    np_add (external_links_percentage [story_c7a, story_c7b])
        (self_posts_percentage [story_c7a, story_c7b]) = PyNum.val 100 :=
  ⟨by decide, percentages_sum_to_hundred [story_c7a, story_c7b] (by decide)⟩

/-- Claim C8: the sentiment label the analysis assigns to a comment is
`Positive` exactly when its computed compound polarity score is
positive, `Negative` exactly when negative, `Neutral` exactly when
zero — a pure sign-based reclassification. -/
theorem sentiment_label_sign (polarity : String → ℚ) (x : String) :
    (sentiment_label (sentiment_score polarity x) = "Positive"
        ↔ 0 < sentiment_score polarity x) ∧
    (sentiment_label (sentiment_score polarity x) = "Negative"
        ↔ sentiment_score polarity x < 0) ∧
    (sentiment_label (sentiment_score polarity x) = "Neutral"
        ↔ sentiment_score polarity x = 0) := by
  rcases lt_trichotomy (sentiment_score polarity x) 0 with h | h | h
  · have hpos : ¬ sentiment_score polarity x > 0 := by linarith
    unfold sentiment_label
    rw [if_neg hpos, if_pos h]
    refine ⟨⟨fun hs => absurd hs (by decide), fun hlt => absurd hlt hpos⟩,
      ⟨fun _ => h, fun _ => rfl⟩,
      ⟨fun hs => absurd hs (by decide), fun he => absurd he (ne_of_lt h)⟩⟩
  · have hpos : ¬ sentiment_score polarity x > 0 := by rw [h]; exact lt_irrefl 0
    have hneg : ¬ sentiment_score polarity x < 0 := by rw [h]; exact lt_irrefl 0
    unfold sentiment_label
    rw [if_neg hpos, if_neg hneg]
    refine ⟨⟨fun hs => absurd hs (by decide), fun hlt => absurd hlt hpos⟩,
      ⟨fun hs => absurd hs (by decide), fun hlt => absurd hlt hneg⟩,
      ⟨fun _ => h, fun _ => rfl⟩⟩
  · unfold sentiment_label
    rw [if_pos h]
    refine ⟨⟨fun _ => h, fun _ => rfl⟩,
      ⟨fun hs => absurd hs (by decide), fun hlt => absurd hlt (by linarith)⟩,
      ⟨fun hs => absurd hs (by decide), fun he => absurd he (by linarith)⟩⟩

/-- Claim C5: when `Retrieving_data_about_articles(ids, limit)` returns,
it returns at most `limit` records; assuming the API answers each
identifier with an item carrying that identifier, every record's id is
drawn from `ids[:limit]`; absent fetches are dropped; each kept record
takes `len(kids)` as its comment count and defaults a missing
`descendants` to 0. -/
theorem build_story_table_bounds (env : Env) (array : List Nat)
    (num_stories : Nat) (rows : List StoryRow)
    (hok : Retrieving_data_about_articles env array num_stories = .ok rows)
    (hid : ∀ sid ∈ array, ∀ it : Item,
      fetch_story_details env sid = .ok (some it) → it.id = some sid) :
    rows.length ≤ num_stories ∧
    ∀ r ∈ rows, ∃ sid ∈ array.take num_stories, ∃ it : Item,
      fetch_story_details env sid = .ok (some it) ∧
      r = mk_story_row it ∧ r.id = some sid ∧
      r.comments_count = (it.kids.getD []).length ∧
      r.descendants = it.descendants.getD 0 := by
  unfold Retrieving_data_about_articles at hok
  cases hmap : executor_map (fetch_story_details env) (array.take num_stories) with
  | error e =>
    rw [hmap] at hok
    simp at hok
  | ok ys =>
    rw [hmap] at hok
    simp only [except_bind_ok, except_pure_eq, Except.ok.injEq] at hok
    subst hok
    have hfa := executor_map_ok_iff.mp hmap
    constructor
    · calc (List.filterMap (fun od => od.map mk_story_row) ys).length
          ≤ ys.length := List.length_filterMap_le _ _
        _ = (array.take num_stories).length := hfa.length_eq.symm
        _ ≤ num_stories := List.length_take_le _ _
    · intro r hr
      rcases List.mem_filterMap.mp hr with ⟨od, hodmem, hodmap⟩
      rcases Option.map_eq_some'.mp hodmap with ⟨it, hod, hmk⟩
      subst hod
      rcases forall₂_mem_right hfa hodmem with ⟨sid, hsidmem, hfetch⟩
      have hidr : it.id = some sid :=
        hid sid (List.take_subset _ _ hsidmem) it hfetch
      refine ⟨sid, hsidmem, it, hfetch, hmk.symm, ?_, ?_, ?_⟩
      · rw [← hmk]
        exact hidr
      · rw [← hmk]
        rfl
      · rw [← hmk]
        rfl

/-- Witness for C5: two requested ids, limit 2, one absent result
dropped, the kept record drawn from the requested prefix. -/
theorem build_story_table_bounds_witness :
    [mk_story_row item_c5].length ≤ 2 ∧
    ∀ r ∈ [mk_story_row item_c5], ∃ sid ∈ [1, 2].take 2, ∃ it : Item,
      fetch_story_details env_c5 sid = .ok (some it) ∧
      r = mk_story_row it ∧ r.id = some sid ∧
      r.comments_count = (it.kids.getD []).length ∧
      r.descendants = it.descendants.getD 0 :=
  build_story_table_bounds env_c5 [1, 2] 2 [mk_story_row item_c5] rfl
    (by
      intro sid hsid it hit
      rcases List.mem_cons.mp hsid with rfl | hsid2
      · have h1 : fetch_story_details env_c5 1 = .ok (some item_c5) := rfl
        rw [h1] at hit
        cases hit
        rfl
      · rcases List.mem_cons.mp hsid2 with rfl | hsid3
        · have h2 : fetch_story_details env_c5 2 = .ok none := rfl
          rw [h2] at hit
          cases hit
        · cases hsid3)

/-- Per-comment provenance of `Fetching_responses_to_top_stories`: every
returned comment row came from the successful re-fetch of one of the
given stories, whose detail carried a child-identifier list, by a
successful fetch of one of those child identifiers; the row is the field
extraction of that fetched comment tagged with that story's id. -/
theorem Fetching_comments_provenance (env : Env) (stories : List StoryRow)
    (comments : List CommentRow)
    (hok : Fetching_responses_to_top_stories env stories = .ok comments) :
    ∀ c ∈ comments, ∃ story ∈ stories, ∃ it : Item, ∃ comment_ids : List Nat,
      ∃ cid ∈ comment_ids, ∃ cd : Item,
        requests_get_json env (item_url (pyStrOptNat story.id)) = .ok (some it) ∧
        it.kids = some comment_ids ∧
        fetch_comment_details env cid = .ok (some cd) ∧
        c = mk_comment_row cd story.id ∧
        c.parent_story = story.id ∧
        c.parent_story ∈ stories.map StoryRow.id := by
  induction stories generalizing comments with
  | nil =>
    unfold Fetching_responses_to_top_stories at hok
    simp only [Except.ok.injEq] at hok
    subst hok
    intro c hc
    cases hc
  | cons story rest ih =>
    unfold Fetching_responses_to_top_stories at hok
    cases hsd : requests_get_json env (item_url (pyStrOptNat story.id)) with
    | error e =>
      rw [hsd] at hok
      simp at hok
    | ok od =>
      rw [hsd] at hok
      simp only [except_bind_ok] at hok
      cases od with
      | none =>
        simp only [except_pure_eq, except_bind_ok] at hok
        cases hrec : Fetching_responses_to_top_stories env rest with
        | error e =>
          rw [hrec] at hok
          simp at hok
        | ok further =>
          rw [hrec] at hok
          simp only [except_bind_ok, except_pure_eq, Except.ok.injEq] at hok
          subst hok
          intro c hc
          rcases ih further hrec c (by simpa using hc) with
            ⟨story2, hstory2, it2, cids2, cid2, hcid2, cd2,
              hreq2, hkids2, hf2, hceq2, hpar2, hmem2⟩
          refine ⟨story2, List.mem_cons_of_mem _ hstory2, it2, cids2, cid2, hcid2, cd2,
            hreq2, hkids2, hf2, hceq2, hpar2, ?_⟩
          rw [List.map_cons]
          exact List.mem_cons_of_mem _ hmem2
      | some it =>
        simp only [except_pure_eq, except_bind_ok] at hok
        cases hkids : it.kids with
        | none =>
          rw [hkids] at hok
          simp only [except_pure_eq, except_bind_ok] at hok
          cases hrec : Fetching_responses_to_top_stories env rest with
          | error e =>
            rw [hrec] at hok
            simp at hok
          | ok further =>
            rw [hrec] at hok
            simp only [except_bind_ok, except_pure_eq, Except.ok.injEq] at hok
            subst hok
            intro c hc
            rcases ih further hrec c (by simpa using hc) with
              ⟨story2, hstory2, it2, cids2, cid2, hcid2, cd2,
                hreq2, hkids2, hf2, hceq2, hpar2, hmem2⟩
            refine ⟨story2, List.mem_cons_of_mem _ hstory2, it2, cids2, cid2, hcid2, cd2,
              hreq2, hkids2, hf2, hceq2, hpar2, ?_⟩
            rw [List.map_cons]
            exact List.mem_cons_of_mem _ hmem2
        | some comment_ids =>
          rw [hkids] at hok
          simp only [except_pure_eq, except_bind_ok] at hok
          cases hmap : executor_map (fetch_comment_details env) comment_ids with
          | error e =>
            rw [hmap] at hok
            simp at hok
          | ok lst =>
            rw [hmap] at hok
            simp only [except_bind_ok, except_pure_eq] at hok
            cases hrec : Fetching_responses_to_top_stories env rest with
            | error e =>
              rw [hrec] at hok
              simp at hok
            | ok further =>
              rw [hrec] at hok
              simp only [except_bind_ok, except_pure_eq, Except.ok.injEq] at hok
              subst hok
              intro c hc
              rcases List.mem_append.mp hc with hc1 | hc2
              · rcases List.mem_filterMap.mp hc1 with ⟨od2, hod2mem, hmapc⟩
                rcases Option.map_eq_some'.mp hmapc with ⟨cd, hod2, hmk⟩
                subst hod2
                have hfa := executor_map_ok_iff.mp hmap
                rcases forall₂_mem_right hfa hod2mem with ⟨cid, hcidmem, hfetch⟩
                refine ⟨story, List.mem_cons_self _ _, it, comment_ids, cid, hcidmem, cd,
                  hsd, hkids, hfetch, hmk.symm, ?_, ?_⟩
                · rw [← hmk]
                  rfl
                · rw [← hmk, List.map_cons]
                  exact List.mem_cons_self _ _
              · rcases ih further hrec c hc2 with
                  ⟨story2, hstory2, it2, cids2, cid2, hcid2, cd2,
                    hreq2, hkids2, hf2, hceq2, hpar2, hmem2⟩
                refine ⟨story2, List.mem_cons_of_mem _ hstory2, it2, cids2, cid2, hcid2, cd2,
                  hreq2, hkids2, hf2, hceq2, hpar2, ?_⟩
                rw [List.map_cons]
                exact List.mem_cons_of_mem _ hmem2

/-- Claim C6: when the comment builder returns, every comment row's
parent-story equals the identifier of the story whose child-comment list
produced it — the row is built by `mk_comment_row` from a comment
fetched out of that story's own `kids` list and tagged with that
story's id — and is therefore a member of the identifier set of the
story table passed in; and when no story's re-fetched detail carries a
child-identifier list, no comment records are produced at all. -/
theorem comment_parent_is_producing_story_id (env : Env) (stories : List StoryRow)
    (comments : List CommentRow)
    (hok : Fetching_responses_to_top_stories env stories = .ok comments) :
    (∀ c ∈ comments, ∃ story ∈ stories, ∃ it : Item, ∃ comment_ids : List Nat,
      ∃ cid ∈ comment_ids, ∃ cd : Item,
        requests_get_json env (item_url (pyStrOptNat story.id)) = .ok (some it) ∧
        it.kids = some comment_ids ∧
        fetch_comment_details env cid = .ok (some cd) ∧
        c = mk_comment_row cd story.id ∧
        c.parent_story = story.id ∧
        c.parent_story ∈ stories.map StoryRow.id) ∧
    ((∀ story ∈ stories, ∀ it : Item,
        requests_get_json env (item_url (pyStrOptNat story.id)) = .ok (some it) →
        it.kids = none) → comments = []) := by
  have part1 := Fetching_comments_provenance env stories comments hok
  refine ⟨part1, ?_⟩
  intro hnone
  cases comments with
  | nil => rfl
  | cons c cs =>
    exfalso
    rcases part1 c (List.mem_cons_self c cs) with
      ⟨story, hstory, it, cids, cid, hcid, cd, hreq, hkids, -⟩
    have hk := hnone story hstory it hreq
    rw [hk] at hkids
    cases hkids

/-- Witness for C6: the one comment fetched for story 1 was produced by
story 1's child list and carries parent-story 1, a member of the story
table's id set. -/
theorem comment_parent_is_producing_story_id_witness :
    ∃ story ∈ [story_c6], ∃ it : Item, ∃ comment_ids : List Nat,
      ∃ cid ∈ comment_ids, ∃ cd : Item,
        requests_get_json env_c6 (item_url (pyStrOptNat story.id)) = .ok (some it) ∧
        it.kids = some comment_ids ∧
        fetch_comment_details env_c6 cid = .ok (some cd) ∧
        mk_comment_row item_c6c (some 1) = mk_comment_row cd story.id ∧
        (mk_comment_row item_c6c (some 1)).parent_story = story.id ∧
        (mk_comment_row item_c6c (some 1)).parent_story ∈ [story_c6].map StoryRow.id :=
  (comment_parent_is_producing_story_id env_c6 [story_c6]
      [mk_comment_row item_c6c (some 1)] rfl).1
    (mk_comment_row item_c6c (some 1)) (List.mem_singleton.mpr rfl)

/-- Claim C1 counterexample: with identifier list `[7]` answered by a
malformed body, the pool collection raises instead of returning a
length-1 sequence with an absent placeholder. -/
theorem retrieval_aborts_on_raising_fetch :
    ¬ ∃ rs : List (Option Item),
      collect_in_order
          (completion_log (fun i => fetch_story_details env_c1x ([7].getD i 0)) [0]) 1
        = .ok rs := by
  rintro ⟨rs, h⟩
  have hval : collect_in_order
      (completion_log (fun i => fetch_story_details env_c1x ([7].getD i 0)) [0]) 1
      = Except.error () := rfl
  rw [hval] at h
  cases h

/-- Claim C1 (amended): for every identifier list and every completion
order of the worker pool, when no individual fetch raises, the
collection has one entry per identifier, in input order — the i-th
entry is the parsed fetch result for the i-th identifier, with `none`
standing for an absent (`null`-body) fetch — regardless of the order in
which the workers finished. -/
theorem retrieval_preserves_input_order (env : Env) (L : List Nat)
    (order : List Nat) (hperm : order.Perm (List.range L.length))
    (hok : ∀ sid ∈ L, env (item_url (toString sid)) ≠ .fail) :
    collect_in_order
        (completion_log (fun i => fetch_story_details env (L.getD i 0)) order)
        L.length
      = .ok (L.map (fetched_item env)) := by
  unfold collect_in_order
  have hstep : ∀ i ∈ List.range L.length,
      (lookup_result (completion_log (fun i => fetch_story_details env (L.getD i 0)) order) i).getD
          (.error ())
        = .ok (fetched_item env (L.getD i 0)) := by
    intro i hi
    have hiord : i ∈ order := hperm.mem_iff.mpr hi
    rw [lookup_result_completion_log _ _ _ hiord]
    simp only [Option.getD_some]
    have hilt : i < L.length := List.mem_range.mp hi
    have hmem : L.getD i 0 ∈ L := by
      rw [List.getD_eq_getElem L 0 hilt]
      exact List.getElem_mem hilt
    exact fetch_story_details_eq_of_ne_fail (hok _ hmem)
  rw [executor_map_eq_map_of_ok hstep]
  rw [map_range_getD L 0 (fetched_item env)]

/-- Witness for the amended C1: two identifiers finished in reversed
completion order still collect in input order, the absent second fetch
contributing `none` at its position. -/
theorem retrieval_preserves_input_order_witness :
    ([1, 0].Perm (List.range 2)) ∧
    collect_in_order
        (completion_log (fun i => fetch_story_details env_c1w ([3, 4].getD i 0)) [1, 0]) 2
      = .ok [some item_c1, none] :=
  ⟨by decide,
   retrieval_preserves_input_order env_c1w [3, 4] [1, 0] (by decide) (by decide)⟩

/-- Claim C9: writing the story table and the comment table and
immediately reading them back preserves row count and every field
value, up to the stringification the persisted format imposes (numbers
parse back to the same numbers; an absent or empty optional text field
reads back as absent). -/
theorem csv_write_read_round_trip (stories : List StoryRow)
    (comments : List CommentRow) :
    read_story_csv (Saving_data_in_a_csv_file stories)
        = stories.map normalize_story_row ∧
    (read_story_csv (Saving_data_in_a_csv_file stories)).length = stories.length ∧
    read_comment_csv (Saving_comments_data_in_a_csv_file comments)
        = comments.map normalize_comment_row ∧
    (read_comment_csv (Saving_comments_data_in_a_csv_file comments)).length
        = comments.length := by
  have hfs : dec_story_row ∘ enc_story_row = normalize_story_row :=
    funext dec_enc_story_row
  have hfc : dec_comment_row ∘ enc_comment_row = normalize_comment_row :=
    funext dec_enc_comment_row
  have h1 : read_story_csv (Saving_data_in_a_csv_file stories)
      = stories.map normalize_story_row := by
    show (stories.map enc_story_row).map dec_story_row = stories.map normalize_story_row
    rw [List.map_map, hfs]
  have h3 : read_comment_csv (Saving_comments_data_in_a_csv_file comments)
      = comments.map normalize_comment_row := by
    show (comments.map enc_comment_row).map dec_comment_row
        = comments.map normalize_comment_row
    rw [List.map_map, hfc]
  refine ⟨h1, ?_, h3, ?_⟩
  · rw [h1, List.length_map]
  · rw [h3, List.length_map]

/-- Claim C10: in a run whose comment builder returns the empty list,
the comment file is not rewritten; the unconditional reload then reads
whatever comment file a previous run left on disk, and raises
`FileNotFoundError` when none exists. -/
theorem empty_comments_reload_stale_or_fails (env : Env)
    (top_stories_ids : Except Unit (List Nat)) (num_of_stories : Nat)
    (disk : FS) (ids : List Nat) (articles : List StoryRow)
    (htop : top_stories_ids = .ok ids)
    (hret : Retrieving_data_about_articles env ids num_of_stories = .ok articles)
    (hcom : Fetching_responses_to_top_stories env articles = .ok []) :
    (disk.comments_csv = none →
      Data_collection_and_analysis_from_Hacker_News env top_stories_ids num_of_stories disk
        = .error RunError.fileNotFound) ∧
    (∀ old, disk.comments_csv = some old →
      Data_collection_and_analysis_from_Hacker_News env top_stories_ids num_of_stories disk
        = .ok (⟨some (Saving_data_in_a_csv_file articles), some old⟩,
               read_story_csv (Saving_data_in_a_csv_file articles),
               read_comment_csv old)) := by
  subst htop
  constructor
  · intro hnone
    unfold Data_collection_and_analysis_from_Hacker_News
    simp [Except.mapError, hret, hcom, hnone, List.isEmpty]
  · intro old hold
    unfold Data_collection_and_analysis_from_Hacker_News
    simp [Except.mapError, hret, hcom, hold, List.isEmpty]

/-- Witness for C10: a zero-comment run fails on reload with an empty
disk and reads the stale file when one exists. -/
theorem empty_comments_reload_stale_or_fails_witness :
    (Data_collection_and_analysis_from_Hacker_News env_c10 (.ok []) 0 ⟨none, none⟩
        = .error RunError.fileNotFound) ∧
    (Data_collection_and_analysis_from_Hacker_News env_c10 (.ok []) 0
          ⟨none, some stale_comments_file⟩
        = .ok (⟨some (Saving_data_in_a_csv_file []), some stale_comments_file⟩,
               read_story_csv (Saving_data_in_a_csv_file []),
               read_comment_csv stale_comments_file)) :=
  ⟨(empty_comments_reload_stale_or_fails env_c10 (.ok []) 0 ⟨none, none⟩ [] []
      rfl rfl rfl).1 rfl,
   (empty_comments_reload_stale_or_fails env_c10 (.ok []) 0
      ⟨none, some stale_comments_file⟩ [] [] rfl rfl rfl).2 stale_comments_file rfl⟩
